import Mathlib

/-!
# podman attach helpers (`cmd/podman/utils.go`) and `podman top` (`cmd/podman/top.go`)

A shallow embedding of `attachCtr`, `startAttachCtr`, `resizeTty` and `topCmd`.

The Go functions act on the outside world (the terminal of `os.Stdin`, the
container, standard output).  Each function is embedded as a pure function
from the answers of its collaborators (`World`, `TopEnv`) to the ordered list
of effects it performs (`Event`) together with the value it returns.
-/

namespace Podman

/-! ## Data model -/

/-- An open file behind an `*os.File`; the nil pointer is `none : Option File`. -/
structure File where
  fd : Nat
deriving DecidableEq, Repr

/-- Error values as built by `github.com/pkg/errors`: a fresh error with a
message (`errors.Errorf`, `errors.New`) or an error wrapping a cause with an
added message (`errors.Wrapf`). -/
inductive Error where
  | errorf (msg : String)
  | wrapf (cause : Error) (msg : String)
deriving DecidableEq, Repr

/-- Text of `err.Error()`: a wrapped error prints its message, a colon and the
text of its cause. -/
def Error.text : Error → String
  | .errorf msg => msg
  | .wrapf cause msg => msg ++ ": " ++ cause.text

/-- Go `errors.Wrapf(err, msg)`: nil for a nil `err`, otherwise `err` wrapped
with the (already formatted) message. -/
def Wrapf (err : Option Error) (msg : String) : Option Error :=
  match err with
  | none => none
  | some e => some (Error.wrapf e msg)

/-- Modelled from the spec: the lifecycle states reported by `container.State()`
(`created`, `running`, `stopped`, `paused`, ...); the constants themselves are
declared in package `libpod`.  The code at hand only compares a state with
`running`. -/
inductive ContainerState where
  | unknown
  | configured
  | created
  | running
  | stopped
  | paused
deriving DecidableEq, Repr

/-- Part `Process` of the OCI runtime spec: only the `Terminal` flag is read. -/
structure Process where
  Terminal : Bool
deriving DecidableEq, Repr

/-- OCI runtime spec returned by `ctr.Spec()`. -/
structure Spec where
  Process : Process
deriving DecidableEq, Repr

/-- What the code observes of a `*libpod.Container`. -/
structure Container where
  ID : String
  state : ContainerState
  Spec : Spec
deriving DecidableEq, Repr

/-- Record `libpod.AttachStreams`. -/
structure AttachStreams where
  OutputStream : Option File
  ErrorStream : Option File
  InputStream : Option File
  AttachOutput : Bool
  AttachError : Bool
  AttachInput : Bool
deriving DecidableEq, Repr

/-- Go `new(libpod.AttachStreams)`: every field holds its zero value. -/
def newAttachStreams : AttachStreams :=
  { OutputStream := none, ErrorStream := none, InputStream := none,
    AttachOutput := false, AttachError := false, AttachInput := false }

/-- Snapshot `term.State` of a terminal mode (the termios settings). -/
structure TermState where
  termios : Nat
deriving DecidableEq, Repr

/-- Effects performed by `attachCtr` and `startAttachCtr`, in program order. -/
inductive Event where
  | debugf (msg : String)
  | resizeTty
  | saveState
  | setRawTerminal
  | restoreTerminal (oldTermState : TermState)
  | proxySignals (ctr : String)
  | attach (ctr : String) (streams : AttachStreams) (detachKeys : String)
  | startAndAttach (ctr : String) (streams : AttachStreams) (detachKeys : String)
  | printf (out : String)
  | recvAttachChan
deriving DecidableEq, Repr

/-- Answers of the collaborators of `attachCtr` and `startAttachCtr`. -/
structure World where
  /-- Result of `terminal.IsTerminal(int(os.Stdin.Fd()))`. -/
  isTerminal : Bool
  /-- Mode of the terminal of `os.Stdin` when the function is entered. -/
  termios : TermState
  /-- Error returned by `term.SaveState`, if it fails. -/
  saveStateErr : Option Error
  /-- Mode that `term.SetRawTerminal` installs over a given mode. -/
  makeRaw : TermState → TermState
  /-- Value returned by `ctr.Attach(streams, detachKeys, resize)`. -/
  Attach : Container → AttachStreams → String → Option Error
  /-- Result of `ctr.StartAndAttach`: the error it returns, or the value later
  received from the channel it returns. -/
  StartAndAttach : Container → AttachStreams → String → Except Error (Option Error)

/-- Outcome of a run: the effects in order and the returned `error`. -/
structure Run where
  trace : List Event
  result : Option Error

/-- Go `term.SaveState(os.Stdin.Fd())`: the current mode, or an error. -/
def SaveState (w : World) : Except Error TermState :=
  match w.saveStateErr with
  | some err => .error err
  | none => .ok w.termios

/-! ## `cmd/podman/utils.go` -/

/-- Lines 40-59 of `attachCtr` (91-110 of `startAttachCtr`): the streams record
built from the three handles, with the debug lines logged on the way. -/
def setupStreams (stdout stderr stdin : Option File) : AttachStreams × List Event :=
  let streams := newAttachStreams
  let streams := { streams with OutputStream := stdout }
  let streams := { streams with ErrorStream := stderr }
  let streams := { streams with InputStream := stdin }
  let streams := { streams with AttachOutput := true }
  let streams := { streams with AttachError := true }
  let streams := { streams with AttachInput := true }
  let log : List Event := []
  let (streams, log) :=
    if stdout = none then
      ({ streams with AttachOutput := false }, log ++ [Event.debugf "Not attaching to stdout"])
    else (streams, log)
  let (streams, log) :=
    if stderr = none then
      ({ streams with AttachError := false }, log ++ [Event.debugf "Not attaching to stderr"])
    else (streams, log)
  let (streams, log) :=
    if stdin = none then
      ({ streams with AttachInput := false }, log ++ [Event.debugf "Not attaching to stdin"])
    else (streams, log)
  (streams, log)

/-- Lines 40-65 of `attachCtr`: everything after the terminal set-up. -/
def attachCtrBody (w : World) (ctr : Container) (stdout stderr stdin : Option File)
    (detachKeys : String) (sigProxy : Bool) : Run :=
  let streams := (setupStreams stdout stderr stdin).1
  let log := (setupStreams stdout stderr stdin).2
  let proxy : List Event := if sigProxy then [Event.proxySignals ctr.ID] else []
  { trace := log ++ proxy ++ [Event.attach ctr.ID streams detachKeys],
    result := w.Attach ctr streams detachKeys }

/-- Go `attachCtr`.  The deferred `term.RestoreTerminal` runs when the body
returns, so its event closes the trace of every run that registered it. -/
def attachCtr (w : World) (ctr : Container) (stdout stderr stdin : Option File)
    (detachKeys : String) (sigProxy : Bool) : Run :=
  let haveTerminal := w.isTerminal
  if haveTerminal && ctr.Spec.Process.Terminal then
    let setup : List Event :=
      [Event.debugf "Handling terminal attach", Event.resizeTty, Event.saveState]
    match SaveState w with
    | .error err =>
      { trace := setup, result := Wrapf (some err) "unable to save terminal state" }
    | .ok oldTermState =>
      let body := attachCtrBody w ctr stdout stderr stdin detachKeys sigProxy
      { trace := setup ++ [Event.setRawTerminal] ++ body.trace
          ++ [Event.restoreTerminal oldTermState],
        result := body.result }
  else
    attachCtrBody w ctr stdout stderr stdin detachKeys sigProxy

/-- Lines 91-130 of `startAttachCtr`: everything after the terminal set-up. -/
def startAttachCtrBody (w : World) (ctr : Container) (stdout stderr stdin : Option File)
    (detachKeys : String) (sigProxy : Bool) : Run :=
  let streams := (setupStreams stdout stderr stdin).1
  let log := (setupStreams stdout stderr stdin).2
  let t := log ++ [Event.startAndAttach ctr.ID streams detachKeys]
  match w.StartAndAttach ctr streams detachKeys with
  | .error err => { trace := t, result := some err }
  | .ok attachChan =>
    let t := if sigProxy then t ++ [Event.proxySignals ctr.ID] else t
    let t :=
      if stdout = none && stderr = none then t ++ [Event.printf (ctr.ID ++ "\n")] else t
    let t := t ++ [Event.recvAttachChan]
    match attachChan with
    | some err =>
      { trace := t, result := Wrapf (some err) ("error attaching to container " ++ ctr.ID) }
    | none => { trace := t, result := none }

/-- Go `startAttachCtr`, with the deferred `term.RestoreTerminal` as in
`attachCtr`. -/
def startAttachCtr (w : World) (ctr : Container) (stdout stderr stdin : Option File)
    (detachKeys : String) (sigProxy : Bool) : Run :=
  let haveTerminal := w.isTerminal
  if haveTerminal && ctr.Spec.Process.Terminal then
    let setup : List Event :=
      [Event.debugf "Handling terminal attach", Event.resizeTty, Event.saveState]
    match SaveState w with
    | .error err =>
      { trace := setup, result := Wrapf (some err) "unable to save terminal state" }
    | .ok oldTermState =>
      let body := startAttachCtrBody w ctr stdout stderr stdin detachKeys sigProxy
      { trace := setup ++ [Event.setRawTerminal] ++ body.trace
          ++ [Event.restoreTerminal oldTermState],
        result := body.result }
  else
    startAttachCtrBody w ctr stdout stderr stdin detachKeys sigProxy

/-- Record `term.Winsize` returned by `term.GetWinsize` (16-bit fields, only
copied here). -/
structure Winsize where
  Height : Nat
  Width : Nat
deriving DecidableEq, Repr

/-- Record `remotecommand.TerminalSize` sent on the resize channel. -/
structure TerminalSize where
  Width : Nat
  Height : Nat
deriving DecidableEq, Repr

/-- Effects of the goroutine started by `resizeTty`. -/
inductive PumpEvent where
  | warnf (msg : String)
  | send (size : TerminalSize)
deriving DecidableEq, Repr

/-- Closure `sendUpdate` of `resizeTty`, given the result of its call of
`term.GetWinsize`: a failed query logs a warning and returns, a successful one
sends the size on the resize channel. -/
def sendUpdate (query : Except Error Winsize) : List PumpEvent :=
  match query with
  | .error err => [PumpEvent.warnf ("Could not get terminal size " ++ err.text)]
  | .ok winsize => [PumpEvent.send { Width := winsize.Width, Height := winsize.Height }]

/-- Loop `for range sigchan { sendUpdate() }`, over the results of the query made
for each received SIGWINCH. -/
def resizeLoop : List (Except Error Winsize) → List PumpEvent
  | [] => []
  | query :: rest => sendUpdate query ++ resizeLoop rest

/-- Goroutine of Go `resizeTty`: one `sendUpdate` at once, then one for each
SIGWINCH.  `atStart` is the result of the first size query, `onSigwinch` the
results of the later ones.  `sigchan` is never closed, so the deferred
`close(resize)` is not reached after any finite number of notifications. -/
def resizeTty (atStart : Except Error Winsize) (onSigwinch : List (Except Error Winsize)) :
    List PumpEvent :=
  sendUpdate atStart ++ resizeLoop onSigwinch

/-- Sizes sent on the resize channel, in order. -/
def sent : List PumpEvent → List TerminalSize
  | [] => []
  | PumpEvent.send size :: rest => size :: sent rest
  | PumpEvent.warnf _ :: rest => sent rest

/-! ## `cmd/podman/top.go` -/

/-- Go run-time panic raised by an index or slice expression out of range. -/
inductive Panic where
  | indexOutOfRange (index length : Nat)
deriving DecidableEq, Repr

/-- Go `args[i]` on a slice of strings. -/
def index (args : List String) (i : Nat) : Except Panic String :=
  match args[i]? with
  | some a => .ok a
  | none => .error (Panic.indexOutOfRange i args.length)

/-- Go `args[i:]` on a slice of strings. -/
def sliceFrom (args : List String) (i : Nat) : Except Panic (List String) :=
  if i ≤ args.length then .ok (args.drop i) else .error (Panic.indexOutOfRange i args.length)

/-- Command line of `podman top` and the answers of the collaborators of
`topCmd`. -/
structure TopEnv where
  /-- Value of `c.Args()`. -/
  args : List String
  /-- Value of `c.Bool("latest")`. -/
  latest : Bool
  /-- Error of `validateFlags(c, topFlags)`, if any. -/
  validateFlags : Option Error
  /-- Error of `libpodruntime.GetRuntime(c)`, if any. -/
  GetRuntime : Option Error
  /-- Result of `runtime.GetLatestContainer()`. -/
  GetLatestContainer : Except Error Container
  /-- Result of `runtime.LookupContainer(name)`. -/
  LookupContainer : String → Except Error Container
  /-- Result of `container.State()`. -/
  State : Container → Except Error ContainerState
  /-- Result of `container.GetContainerPidInformation(psArgs)`. -/
  GetContainerPidInformation : Container → List String → Except Error (List String)

/-- Value returned by `topCmd` and the lines it printed. -/
structure TopRun where
  result : Option Error
  printed : List String
deriving DecidableEq, Repr

/-- Go `topCmd`: `.ok` when the function returns, `.error` when it panics. -/
def topCmd (c : TopEnv) : Except Panic TopRun :=
  let args := c.args
  let psArgs : List String := []
  let psOpts : List String := ["-o", "uid,pid,ppid,c,stime,tname,time,cmd"]
  if args.length < 1 && !c.latest then
    .ok { result := some (Error.errorf "you must provide the name or id of a running container"),
          printed := [] }
  else
    match c.validateFlags with
    | some err => .ok { result := some err, printed := [] }
    | none =>
      match c.GetRuntime with
      | some err =>
        .ok { result := Wrapf (some err) "error creating libpod runtime", printed := [] }
      | none => do
        let psOpts ← if args.length > 1 then sliceFrom args 1 else pure psOpts
        let found ←
          if c.latest then pure c.GetLatestContainer
          else do
            let name ← index args 0
            pure (c.LookupContainer name)
        match found with
        | .error err => do
          let name ← index args 0
          pure { result := Wrapf (some err) ("unable to lookup " ++ name), printed := [] }
        | .ok container =>
          match c.State container with
          | .error err => do
            let name ← index args 0
            pure { result := Wrapf (some err) ("unable to look up state for " ++ name),
                   printed := [] }
          | .ok conStat =>
            if conStat ≠ ContainerState.running then
              pure { result := some (Error.errorf "top can only be used on running containers"),
                     printed := [] }
            else
              let psArgs := psArgs ++ psOpts
              match c.GetContainerPidInformation container psArgs with
              | .error err => pure { result := some err, printed := [] }
              | .ok psOutput => pure { result := none, printed := psOutput }


/-! ## Observations on traces -/

/-- Mode of the terminal after one effect, on a device where
`term.SetRawTerminal` and `term.RestoreTerminal` take effect: the first installs
the raw mode, the second the mode it is handed; no other effect changes the
mode. -/
def applyEvent (w : World) (mode : TermState) : Event → TermState
  | Event.setRawTerminal => w.makeRaw mode
  | Event.restoreTerminal oldTermState => oldTermState
  | _ => mode

/-- Mode of the terminal after all the effects of a run that started in mode
`w.termios`. -/
def finalMode (w : World) (trace : List Event) : TermState :=
  trace.foldl (applyEvent w) w.termios

/-- Texts written to standard output by `fmt.Printf`, in order. -/
def printed : List Event → List String
  | [] => []
  | Event.printf out :: rest => out :: printed rest
  | _ :: rest => printed rest

/-- Cause held by a wrapped error, if the error wraps one. -/
def Error.cause : Error → Option Error
  | .errorf _ => none
  | .wrapf cause _ => some cause

/-! ## Concrete worlds and containers -/

/-- Modelled from the spec: the `InvalidStateError` with which the container
refuses an attach when it is not running (declared in package `libpod`). -/
def ErrCtrStateInvalid : Error := Error.errorf "container state improper"

/-- A world whose stdin is a terminal and whose container refuses to attach
unless it is running. -/
def ttyWorld : World where
  isTerminal := true
  termios := { termios := 7 }
  saveStateErr := none
  makeRaw := fun _ => { termios := 0 }
  Attach := fun ctr _ _ =>
    if ctr.state = ContainerState.running then none else some ErrCtrStateInvalid
  StartAndAttach := fun _ _ _ => .ok none

/-- A world whose stdin is not a terminal. -/
def pipeWorld : World where
  isTerminal := false
  termios := { termios := 7 }
  saveStateErr := none
  makeRaw := fun _ => { termios := 0 }
  Attach := fun _ _ _ => none
  StartAndAttach := fun _ _ _ => .ok none

/-- A world whose stdin is a terminal and in which `ctr.StartAndAttach` fails. -/
def failedStartWorld : World where
  isTerminal := true
  termios := { termios := 7 }
  saveStateErr := none
  makeRaw := fun _ => { termios := 0 }
  Attach := fun _ _ _ => none
  StartAndAttach := fun _ _ _ => .error (Error.errorf "cannot start container")

/-- A world in which the attach channel later delivers an error. -/
def brokenRelayWorld : World where
  isTerminal := true
  termios := { termios := 7 }
  saveStateErr := none
  makeRaw := fun _ => { termios := 0 }
  Attach := fun _ _ _ => some (Error.errorf "connection reset")
  StartAndAttach := fun _ _ _ => .ok (some (Error.errorf "connection reset"))

/-- A paused container whose process expects a terminal. -/
def pausedCtr : Container :=
  { ID := "abc", state := ContainerState.paused, Spec := { Process := { Terminal := true } } }

/-- A running container whose process expects a terminal. -/
def runningCtr : Container :=
  { ID := "abc", state := ContainerState.running, Spec := { Process := { Terminal := true } } }

/-- A file handle standing for the standard output of the process. -/
def outFile : File := { fd := 1 }

/-- Specification side of the resize pump: a successful size query stands for
the size event with the same width and height, a failed query for no event. -/
def querySize (query : Except Error Winsize) : Option TerminalSize :=
  match query with
  | .error _ => none
  | .ok winsize => some { Width := winsize.Width, Height := winsize.Height }

/-- Command `podman top --latest` with no argument, when no container exists:
`runtime.GetLatestContainer` fails. -/
def latestNoContainer : TopEnv where
  args := []
  latest := true
  validateFlags := none
  GetRuntime := none
  GetLatestContainer := .error (Error.errorf "no such container")
  LookupContainer := fun _ => .error (Error.errorf "no such container")
  State := fun ctr => .ok ctr.state
  GetContainerPidInformation := fun _ _ => .ok []

/-- Command `podman top --latest` with no argument, when the state of the
latest container cannot be read. -/
def latestStateFails : TopEnv where
  args := []
  latest := true
  validateFlags := none
  GetRuntime := none
  GetLatestContainer := .ok runningCtr
  LookupContainer := fun _ => .error (Error.errorf "no such container")
  State := fun _ => .error (Error.errorf "cannot read container state")
  GetContainerPidInformation := fun _ _ => .ok []

end Podman

namespace Podman

/-! ## Lemmas on the building blocks -/

theorem setupStreams_fst (stdout stderr stdin : Option File) :
    (setupStreams stdout stderr stdin).1 =
      { OutputStream := stdout, ErrorStream := stderr, InputStream := stdin,
        AttachOutput := stdout.isSome, AttachError := stderr.isSome,
        AttachInput := stdin.isSome } := by
  cases stdout <;> cases stderr <;> cases stdin <;> rfl

theorem setupStreams_log (stdout stderr stdin : Option File) (e : Event)
    (he : e ∈ (setupStreams stdout stderr stdin).2) : ∃ msg, e = Event.debugf msg := by
  cases stdout <;> cases stderr <;> cases stdin <;> simp [setupStreams] at he <;> aesop

theorem attachCtrBody_trace (w : World) (ctr : Container) (stdout stderr stdin : Option File)
    (detachKeys : String) (sigProxy : Bool) :
    (attachCtrBody w ctr stdout stderr stdin detachKeys sigProxy).trace =
      (setupStreams stdout stderr stdin).2
        ++ (if sigProxy then [Event.proxySignals ctr.ID] else [])
        ++ [Event.attach ctr.ID (setupStreams stdout stderr stdin).1 detachKeys] := rfl

theorem attachCtrBody_result (w : World) (ctr : Container) (stdout stderr stdin : Option File)
    (detachKeys : String) (sigProxy : Bool) :
    (attachCtrBody w ctr stdout stderr stdin detachKeys sigProxy).result =
      w.Attach ctr (setupStreams stdout stderr stdin).1 detachKeys := rfl

theorem startAttachCtrBody_error (w : World) (ctr : Container)
    (stdout stderr stdin : Option File) (detachKeys : String) (sigProxy : Bool) (err : Error)
    (h : w.StartAndAttach ctr (setupStreams stdout stderr stdin).1 detachKeys = .error err) :
    startAttachCtrBody w ctr stdout stderr stdin detachKeys sigProxy =
      { trace := (setupStreams stdout stderr stdin).2
          ++ [Event.startAndAttach ctr.ID (setupStreams stdout stderr stdin).1 detachKeys],
        result := some err } := by
  simp only [startAttachCtrBody, h]

theorem startAttachCtrBody_ok (w : World) (ctr : Container)
    (stdout stderr stdin : Option File) (detachKeys : String) (sigProxy : Bool)
    (attachChan : Option Error)
    (h : w.StartAndAttach ctr (setupStreams stdout stderr stdin).1 detachKeys = .ok attachChan) :
    startAttachCtrBody w ctr stdout stderr stdin detachKeys sigProxy =
      { trace := (setupStreams stdout stderr stdin).2
          ++ [Event.startAndAttach ctr.ID (setupStreams stdout stderr stdin).1 detachKeys]
          ++ (if sigProxy then [Event.proxySignals ctr.ID] else [])
          ++ (if stdout = none && stderr = none then [Event.printf (ctr.ID ++ "\n")] else [])
          ++ [Event.recvAttachChan],
        result := Wrapf attachChan ("error attaching to container " ++ ctr.ID) } := by
  simp only [startAttachCtrBody, h]
  cases attachChan <;> cases sigProxy <;> cases stdout <;> cases stderr <;> simp [Wrapf]

theorem attachCtr_plain (w : World) (ctr : Container) (stdout stderr stdin : Option File)
    (detachKeys : String) (sigProxy : Bool)
    (h : (w.isTerminal && ctr.Spec.Process.Terminal) = false) :
    attachCtr w ctr stdout stderr stdin detachKeys sigProxy =
      attachCtrBody w ctr stdout stderr stdin detachKeys sigProxy := by
  simp only [attachCtr, h]
  rfl

theorem attachCtr_engaged (w : World) (ctr : Container) (stdout stderr stdin : Option File)
    (detachKeys : String) (sigProxy : Bool)
    (h : (w.isTerminal && ctr.Spec.Process.Terminal) = true) (hs : w.saveStateErr = none) :
    attachCtr w ctr stdout stderr stdin detachKeys sigProxy =
      { trace := [Event.debugf "Handling terminal attach", Event.resizeTty, Event.saveState]
          ++ [Event.setRawTerminal]
          ++ (attachCtrBody w ctr stdout stderr stdin detachKeys sigProxy).trace
          ++ [Event.restoreTerminal w.termios],
        result := (attachCtrBody w ctr stdout stderr stdin detachKeys sigProxy).result } := by
  simp only [attachCtr, h, SaveState, hs]
  rfl

theorem attachCtr_saveState_failed (w : World) (ctr : Container)
    (stdout stderr stdin : Option File) (detachKeys : String) (sigProxy : Bool) (err : Error)
    (h : (w.isTerminal && ctr.Spec.Process.Terminal) = true) (hs : w.saveStateErr = some err) :
    attachCtr w ctr stdout stderr stdin detachKeys sigProxy =
      { trace := [Event.debugf "Handling terminal attach", Event.resizeTty, Event.saveState],
        result := some (Error.wrapf err "unable to save terminal state") } := by
  simp only [attachCtr, h, SaveState, hs]
  rfl

theorem startAttachCtr_plain (w : World) (ctr : Container) (stdout stderr stdin : Option File)
    (detachKeys : String) (sigProxy : Bool)
    (h : (w.isTerminal && ctr.Spec.Process.Terminal) = false) :
    startAttachCtr w ctr stdout stderr stdin detachKeys sigProxy =
      startAttachCtrBody w ctr stdout stderr stdin detachKeys sigProxy := by
  simp only [startAttachCtr, h]
  rfl

theorem startAttachCtr_engaged (w : World) (ctr : Container)
    (stdout stderr stdin : Option File) (detachKeys : String) (sigProxy : Bool)
    (h : (w.isTerminal && ctr.Spec.Process.Terminal) = true) (hs : w.saveStateErr = none) :
    startAttachCtr w ctr stdout stderr stdin detachKeys sigProxy =
      { trace := [Event.debugf "Handling terminal attach", Event.resizeTty, Event.saveState]
          ++ [Event.setRawTerminal]
          ++ (startAttachCtrBody w ctr stdout stderr stdin detachKeys sigProxy).trace
          ++ [Event.restoreTerminal w.termios],
        result := (startAttachCtrBody w ctr stdout stderr stdin detachKeys sigProxy).result } := by
  simp only [startAttachCtr, h, SaveState, hs]
  rfl

theorem startAttachCtr_saveState_failed (w : World) (ctr : Container)
    (stdout stderr stdin : Option File) (detachKeys : String) (sigProxy : Bool) (err : Error)
    (h : (w.isTerminal && ctr.Spec.Process.Terminal) = true) (hs : w.saveStateErr = some err) :
    startAttachCtr w ctr stdout stderr stdin detachKeys sigProxy =
      { trace := [Event.debugf "Handling terminal attach", Event.resizeTty, Event.saveState],
        result := some (Error.wrapf err "unable to save terminal state") } := by
  simp only [startAttachCtr, h, SaveState, hs]
  rfl

/-- Every effect of the body of `attachCtr` is a debug line, the start of the
signal proxy or the attach call. -/
theorem attachCtrBody_events (w : World) (ctr : Container) (stdout stderr stdin : Option File)
    (detachKeys : String) (sigProxy : Bool) (e : Event)
    (he : e ∈ (attachCtrBody w ctr stdout stderr stdin detachKeys sigProxy).trace) :
    (∃ msg, e = Event.debugf msg) ∨ e = Event.proxySignals ctr.ID ∨
      e = Event.attach ctr.ID (setupStreams stdout stderr stdin).1 detachKeys := by
  rw [attachCtrBody_trace] at he
  simp only [List.mem_append, List.mem_singleton] at he
  rcases he with (he | he) | he
  · exact Or.inl (setupStreams_log _ _ _ e he)
  · cases sigProxy <;> simp at he
    exact Or.inr (Or.inl he)
  · exact Or.inr (Or.inr he)

/-- Every effect of the body of `startAttachCtr` is a debug line, the
start-and-attach call, the start of the signal proxy, the print of the
identifier or the receive on the attach channel. -/
theorem startAttachCtrBody_events (w : World) (ctr : Container)
    (stdout stderr stdin : Option File) (detachKeys : String) (sigProxy : Bool) (e : Event)
    (he : e ∈ (startAttachCtrBody w ctr stdout stderr stdin detachKeys sigProxy).trace) :
    (∃ msg, e = Event.debugf msg) ∨
      e = Event.startAndAttach ctr.ID (setupStreams stdout stderr stdin).1 detachKeys ∨
      e = Event.proxySignals ctr.ID ∨ e = Event.printf (ctr.ID ++ "\n") ∨
      e = Event.recvAttachChan := by
  cases hsa : w.StartAndAttach ctr (setupStreams stdout stderr stdin).1 detachKeys with
  | error err =>
    rw [startAttachCtrBody_error w ctr stdout stderr stdin detachKeys sigProxy err hsa] at he
    simp only [List.mem_append, List.mem_singleton] at he
    rcases he with he | he
    · exact Or.inl (setupStreams_log _ _ _ e he)
    · exact Or.inr (Or.inl he)
  | ok attachChan =>
    rw [startAttachCtrBody_ok w ctr stdout stderr stdin detachKeys sigProxy attachChan hsa] at he
    simp only [List.mem_append, List.mem_singleton] at he
    rcases he with (((he | he) | he) | he) | he
    · exact Or.inl (setupStreams_log _ _ _ e he)
    · exact Or.inr (Or.inl he)
    · cases sigProxy <;> simp at he
      exact Or.inr (Or.inr (Or.inl he))
    · split at he <;> simp at he
      exact Or.inr (Or.inr (Or.inr (Or.inl he)))
    · exact Or.inr (Or.inr (Or.inr (Or.inr he)))

/-- Effects of `attachCtr` outside its body are those of the terminal set-up. -/
theorem attachCtr_events (w : World) (ctr : Container) (stdout stderr stdin : Option File)
    (detachKeys : String) (sigProxy : Bool) (e : Event)
    (he : e ∈ (attachCtr w ctr stdout stderr stdin detachKeys sigProxy).trace) :
    e ∈ (attachCtrBody w ctr stdout stderr stdin detachKeys sigProxy).trace ∨
      ((w.isTerminal && ctr.Spec.Process.Terminal) = true ∧
        (e = Event.debugf "Handling terminal attach" ∨ e = Event.resizeTty ∨
          e = Event.saveState ∨ e = Event.setRawTerminal ∨
          e = Event.restoreTerminal w.termios)) := by
  cases hE : (w.isTerminal && ctr.Spec.Process.Terminal) with
  | false =>
    rw [attachCtr_plain w ctr stdout stderr stdin detachKeys sigProxy hE] at he
    exact Or.inl he
  | true =>
    cases hS : w.saveStateErr with
    | none =>
      rw [attachCtr_engaged w ctr stdout stderr stdin detachKeys sigProxy hE hS] at he
      simp only [List.mem_append, List.mem_cons, List.mem_singleton, List.not_mem_nil,
        or_false] at he
      tauto
    | some err =>
      rw [attachCtr_saveState_failed w ctr stdout stderr stdin detachKeys sigProxy err hE hS] at he
      simp only [List.mem_cons, List.mem_singleton, List.not_mem_nil, or_false] at he
      tauto

/-- Effects of `startAttachCtr` outside its body are those of the terminal
set-up. -/
theorem startAttachCtr_events (w : World) (ctr : Container)
    (stdout stderr stdin : Option File) (detachKeys : String) (sigProxy : Bool) (e : Event)
    (he : e ∈ (startAttachCtr w ctr stdout stderr stdin detachKeys sigProxy).trace) :
    e ∈ (startAttachCtrBody w ctr stdout stderr stdin detachKeys sigProxy).trace ∨
      ((w.isTerminal && ctr.Spec.Process.Terminal) = true ∧
        (e = Event.debugf "Handling terminal attach" ∨ e = Event.resizeTty ∨
          e = Event.saveState ∨ e = Event.setRawTerminal ∨
          e = Event.restoreTerminal w.termios)) := by
  cases hE : (w.isTerminal && ctr.Spec.Process.Terminal) with
  | false =>
    rw [startAttachCtr_plain w ctr stdout stderr stdin detachKeys sigProxy hE] at he
    exact Or.inl he
  | true =>
    cases hS : w.saveStateErr with
    | none =>
      rw [startAttachCtr_engaged w ctr stdout stderr stdin detachKeys sigProxy hE hS] at he
      simp only [List.mem_append, List.mem_cons, List.mem_singleton, List.not_mem_nil,
        or_false] at he
      tauto
    | some err =>
      rw [startAttachCtr_saveState_failed w ctr stdout stderr stdin detachKeys sigProxy err
        hE hS] at he
      simp only [List.mem_cons, List.mem_singleton, List.not_mem_nil, or_false] at he
      tauto

/-- An attach call found in a trace of `attachCtr` is the one of its body. -/
theorem attachCtr_attach_mem (w : World) (ctr : Container) (stdout stderr stdin : Option File)
    (detachKeys : String) (sigProxy : Bool) (id : String) (s : AttachStreams) (k : String)
    (he : Event.attach id s k ∈ (attachCtr w ctr stdout stderr stdin detachKeys sigProxy).trace) :
    id = ctr.ID ∧ s = (setupStreams stdout stderr stdin).1 ∧ k = detachKeys := by
  rcases attachCtr_events w ctr stdout stderr stdin detachKeys sigProxy _ he with hb | ⟨_, hb⟩
  · rcases attachCtrBody_events w ctr stdout stderr stdin detachKeys sigProxy _ hb with
      ⟨msg, hm⟩ | hm | hm
    · cases hm
    · cases hm
    · injection hm with h1 h2 h3
      exact ⟨h1, h2, h3⟩
  · rcases hb with hb | hb | hb | hb | hb <;> cases hb

/-- A start-and-attach call found in a trace of `startAttachCtr` is the one of
its body. -/
theorem startAttachCtr_startAndAttach_mem (w : World) (ctr : Container)
    (stdout stderr stdin : Option File) (detachKeys : String) (sigProxy : Bool) (id : String)
    (s : AttachStreams) (k : String)
    (he : Event.startAndAttach id s k ∈
      (startAttachCtr w ctr stdout stderr stdin detachKeys sigProxy).trace) :
    id = ctr.ID ∧ s = (setupStreams stdout stderr stdin).1 ∧ k = detachKeys := by
  rcases startAttachCtr_events w ctr stdout stderr stdin detachKeys sigProxy _ he with
    hb | ⟨_, hb⟩
  · rcases startAttachCtrBody_events w ctr stdout stderr stdin detachKeys sigProxy _ hb with
      ⟨msg, hm⟩ | hm | hm | hm | hm
    · cases hm
    · injection hm with h1 h2 h3
      exact ⟨h1, h2, h3⟩
    · cases hm
    · cases hm
    · cases hm
  · rcases hb with hb | hb | hb | hb | hb <;> cases hb

/-- When the terminal set-up does not fail, `attachCtr` reaches its attach
call. -/
theorem attachCtr_reaches_attach (w : World) (ctr : Container)
    (stdout stderr stdin : Option File) (detachKeys : String) (sigProxy : Bool)
    (h : (w.isTerminal && ctr.Spec.Process.Terminal) = false ∨ w.saveStateErr = none) :
    Event.attach ctr.ID (setupStreams stdout stderr stdin).1 detachKeys ∈
        (attachCtr w ctr stdout stderr stdin detachKeys sigProxy).trace ∧
      (attachCtr w ctr stdout stderr stdin detachKeys sigProxy).result =
        w.Attach ctr (setupStreams stdout stderr stdin).1 detachKeys := by
  cases hE : (w.isTerminal && ctr.Spec.Process.Terminal) with
  | false =>
    rw [attachCtr_plain w ctr stdout stderr stdin detachKeys sigProxy hE, attachCtrBody_trace,
      attachCtrBody_result]
    simp
  | true =>
    have hS : w.saveStateErr = none := by
      rcases h with h | h
      · rw [hE] at h; cases h
      · exact h
    rw [attachCtr_engaged w ctr stdout stderr stdin detachKeys sigProxy hE hS,
      attachCtrBody_trace, attachCtrBody_result]
    simp

/-- When the terminal set-up does not fail, `startAttachCtr` reaches its
start-and-attach call. -/
theorem startAttachCtr_reaches_startAndAttach (w : World) (ctr : Container)
    (stdout stderr stdin : Option File) (detachKeys : String) (sigProxy : Bool)
    (h : (w.isTerminal && ctr.Spec.Process.Terminal) = false ∨ w.saveStateErr = none) :
    Event.startAndAttach ctr.ID (setupStreams stdout stderr stdin).1 detachKeys ∈
        (startAttachCtr w ctr stdout stderr stdin detachKeys sigProxy).trace := by
  have hb : Event.startAndAttach ctr.ID (setupStreams stdout stderr stdin).1 detachKeys ∈
      (startAttachCtrBody w ctr stdout stderr stdin detachKeys sigProxy).trace := by
    cases hsa : w.StartAndAttach ctr (setupStreams stdout stderr stdin).1 detachKeys with
    | error err =>
      rw [startAttachCtrBody_error w ctr stdout stderr stdin detachKeys sigProxy err hsa]
      simp
    | ok attachChan =>
      rw [startAttachCtrBody_ok w ctr stdout stderr stdin detachKeys sigProxy attachChan hsa]
      simp
  cases hE : (w.isTerminal && ctr.Spec.Process.Terminal) with
  | false =>
    rw [startAttachCtr_plain w ctr stdout stderr stdin detachKeys sigProxy hE]
    exact hb
  | true =>
    have hS : w.saveStateErr = none := by
      rcases h with h | h
      · rw [hE] at h; cases h
      · exact h
    rw [startAttachCtr_engaged w ctr stdout stderr stdin detachKeys sigProxy hE hS]
    simp only [List.mem_append]
    exact Or.inl (Or.inr hb)

/-! ## The streams record handed to the container -/

/-- C1: the streams record that `attachCtr` passes to `ctr.Attach` and that
`startAttachCtr` passes to `ctr.StartAndAttach` stores the three handles
unchanged and has `AttachOutput`, `AttachError`, `AttachInput` true exactly for
the non-nil handles; the call with that record is made whenever the terminal
set-up does not fail; with stdout and stderr both nil neither output channel is
marked attached, and `AttachInput` is the same for every stdout and stderr. -/
theorem attach_streams_flags (w : World) (ctr : Container) (stdout stderr stdin : Option File)
    (detachKeys : String) (sigProxy : Bool) :
    (∀ id s k,
      Event.attach id s k ∈ (attachCtr w ctr stdout stderr stdin detachKeys sigProxy).trace →
        s = { OutputStream := stdout, ErrorStream := stderr, InputStream := stdin,
              AttachOutput := stdout.isSome, AttachError := stderr.isSome,
              AttachInput := stdin.isSome }) ∧
    (∀ id s k,
      Event.startAndAttach id s k ∈
          (startAttachCtr w ctr stdout stderr stdin detachKeys sigProxy).trace →
        s = { OutputStream := stdout, ErrorStream := stderr, InputStream := stdin,
              AttachOutput := stdout.isSome, AttachError := stderr.isSome,
              AttachInput := stdin.isSome }) ∧
    ((w.isTerminal && ctr.Spec.Process.Terminal) = false ∨ w.saveStateErr = none →
      Event.attach ctr.ID
          { OutputStream := stdout, ErrorStream := stderr, InputStream := stdin,
            AttachOutput := stdout.isSome, AttachError := stderr.isSome,
            AttachInput := stdin.isSome } detachKeys ∈
        (attachCtr w ctr stdout stderr stdin detachKeys sigProxy).trace ∧
      Event.startAndAttach ctr.ID
          { OutputStream := stdout, ErrorStream := stderr, InputStream := stdin,
            AttachOutput := stdout.isSome, AttachError := stderr.isSome,
            AttachInput := stdin.isSome } detachKeys ∈
        (startAttachCtr w ctr stdout stderr stdin detachKeys sigProxy).trace) ∧
    (stdout = none → stderr = none →
      (setupStreams stdout stderr stdin).1.AttachOutput = false ∧
      (setupStreams stdout stderr stdin).1.AttachError = false) ∧
    (∀ stdout2 stderr2 : Option File,
      (setupStreams stdout2 stderr2 stdin).1.AttachInput =
        (setupStreams stdout stderr stdin).1.AttachInput) := by
  refine ⟨?_, ?_, ?_, ?_, ?_⟩
  · intro id s k he
    rw [← setupStreams_fst]
    exact (attachCtr_attach_mem w ctr stdout stderr stdin detachKeys sigProxy id s k he).2.1
  · intro id s k he
    rw [← setupStreams_fst]
    exact (startAttachCtr_startAndAttach_mem w ctr stdout stderr stdin detachKeys sigProxy
      id s k he).2.1
  · intro h
    rw [← setupStreams_fst]
    exact ⟨(attachCtr_reaches_attach w ctr stdout stderr stdin detachKeys sigProxy h).1,
      startAttachCtr_reaches_startAndAttach w ctr stdout stderr stdin detachKeys sigProxy h⟩
  · intro ho he
    subst ho he
    simp [setupStreams_fst]
  · intro stdout2 stderr2
    simp [setupStreams_fst]

/-- Witness of C1 on a world without terminal, with stdout attached only. -/
theorem attach_streams_flags_witness :
    Event.attach "abc"
        { OutputStream := some outFile, ErrorStream := none, InputStream := none,
          AttachOutput := true, AttachError := false, AttachInput := false } "ctrl-p" ∈
      (attachCtr pipeWorld runningCtr (some outFile) none none "ctrl-p" true).trace ∧
    Event.startAndAttach "abc"
        { OutputStream := some outFile, ErrorStream := none, InputStream := none,
          AttachOutput := true, AttachError := false, AttachInput := false } "ctrl-p" ∈
      (startAttachCtr pipeWorld runningCtr (some outFile) none none "ctrl-p" true).trace :=
  (attach_streams_flags pipeWorld runningCtr (some outFile) none none "ctrl-p" true).2.2.1
    (Or.inl rfl)

/-! ## Container state -/

/-- C2 (counterexample): on a paused container with `sigProxy = false`, on a
terminal, `attachCtr` saves the terminal state, switches the terminal to raw
mode and invokes `ctr.Attach`; the invalid-state error it returns is the one
`ctr.Attach` reported. -/
theorem attachCtr_paused_still_attaches :
    pausedCtr.state ≠ ContainerState.running ∧
    Event.saveState ∈ (attachCtr ttyWorld pausedCtr none none none "" false).trace ∧
    Event.setRawTerminal ∈ (attachCtr ttyWorld pausedCtr none none none "" false).trace ∧
    Event.attach "abc"
        { OutputStream := none, ErrorStream := none, InputStream := none,
          AttachOutput := false, AttachError := false, AttachInput := false } "" ∈
      (attachCtr ttyWorld pausedCtr none none none "" false).trace ∧
    (attachCtr ttyWorld pausedCtr none none none "" false).result = some ErrCtrStateInvalid := by
  decide

/-- C2 (amended): `attachCtr` makes no state check of its own.  For every
container that is not running: without an engaged terminal it touches no
terminal mode, invokes `ctr.Attach` and returns what `ctr.Attach` returns; with
an engaged terminal whose state can be saved it switches to raw mode, invokes
`ctr.Attach` and returns what `ctr.Attach` returns; only a failure of
`term.SaveState` keeps it from the attach call. -/
theorem attachCtr_state_unchecked (w : World) (ctr : Container)
    (stdout stderr stdin : Option File) (detachKeys : String) (sigProxy : Bool)
    (_hstate : ctr.state ≠ ContainerState.running) :
    ((w.isTerminal && ctr.Spec.Process.Terminal) = false →
      Event.attach ctr.ID (setupStreams stdout stderr stdin).1 detachKeys ∈
        (attachCtr w ctr stdout stderr stdin detachKeys sigProxy).trace ∧
      (attachCtr w ctr stdout stderr stdin detachKeys sigProxy).result =
        w.Attach ctr (setupStreams stdout stderr stdin).1 detachKeys ∧
      Event.saveState ∉ (attachCtr w ctr stdout stderr stdin detachKeys sigProxy).trace ∧
      Event.setRawTerminal ∉ (attachCtr w ctr stdout stderr stdin detachKeys sigProxy).trace ∧
      ∀ st, Event.restoreTerminal st ∉
        (attachCtr w ctr stdout stderr stdin detachKeys sigProxy).trace) ∧
    ((w.isTerminal && ctr.Spec.Process.Terminal) = true → w.saveStateErr = none →
      Event.attach ctr.ID (setupStreams stdout stderr stdin).1 detachKeys ∈
        (attachCtr w ctr stdout stderr stdin detachKeys sigProxy).trace ∧
      (attachCtr w ctr stdout stderr stdin detachKeys sigProxy).result =
        w.Attach ctr (setupStreams stdout stderr stdin).1 detachKeys ∧
      Event.setRawTerminal ∈ (attachCtr w ctr stdout stderr stdin detachKeys sigProxy).trace) ∧
    (∀ err, (w.isTerminal && ctr.Spec.Process.Terminal) = true → w.saveStateErr = some err →
      (attachCtr w ctr stdout stderr stdin detachKeys sigProxy).result =
        some (Error.wrapf err "unable to save terminal state") ∧
      Event.setRawTerminal ∉ (attachCtr w ctr stdout stderr stdin detachKeys sigProxy).trace ∧
      ∀ id s k, Event.attach id s k ∉
        (attachCtr w ctr stdout stderr stdin detachKeys sigProxy).trace) := by
  refine ⟨?_, ?_, ?_⟩
  · intro hE
    have hr := attachCtr_reaches_attach w ctr stdout stderr stdin detachKeys sigProxy (Or.inl hE)
    have hno : ∀ e, e ∈ (attachCtr w ctr stdout stderr stdin detachKeys sigProxy).trace →
        (∃ msg, e = Event.debugf msg) ∨ e = Event.proxySignals ctr.ID ∨
          e = Event.attach ctr.ID (setupStreams stdout stderr stdin).1 detachKeys := by
      intro e he
      rw [attachCtr_plain w ctr stdout stderr stdin detachKeys sigProxy hE] at he
      exact attachCtrBody_events w ctr stdout stderr stdin detachKeys sigProxy e he
    refine ⟨hr.1, hr.2, ?_, ?_, ?_⟩
    · intro he
      rcases hno _ he with ⟨_, h⟩ | h | h <;> cases h
    · intro he
      rcases hno _ he with ⟨_, h⟩ | h | h <;> cases h
    · intro st he
      rcases hno _ he with ⟨_, h⟩ | h | h <;> cases h
  · intro hE hS
    have hr := attachCtr_reaches_attach w ctr stdout stderr stdin detachKeys sigProxy (Or.inr hS)
    refine ⟨hr.1, hr.2, ?_⟩
    rw [attachCtr_engaged w ctr stdout stderr stdin detachKeys sigProxy hE hS]
    simp
  · intro err hE hS
    rw [attachCtr_saveState_failed w ctr stdout stderr stdin detachKeys sigProxy err hE hS]
    simp

/-- Witness of C2 (amended): a paused container on a terminal. -/
theorem attachCtr_state_unchecked_witness :
    Event.attach "abc" (setupStreams none none none).1 "" ∈
      (attachCtr ttyWorld pausedCtr none none none "" false).trace ∧
    (attachCtr ttyWorld pausedCtr none none none "" false).result =
      ttyWorld.Attach pausedCtr (setupStreams none none none).1 "" ∧
    Event.setRawTerminal ∈ (attachCtr ttyWorld pausedCtr none none none "" false).trace :=
  (attachCtr_state_unchecked ttyWorld pausedCtr none none none "" false (by decide)).2.1 rfl rfl

/-! ## Restoring the terminal -/

/-- The terminal mode after a trace that ends in a restore is the restored
mode. -/
theorem finalMode_append_restore (w : World) (pre : List Event) (st : TermState) :
    finalMode w (pre ++ [Event.restoreTerminal st]) = st := by
  simp [finalMode, List.foldl_append, applyEvent]

/-- C3: in every run of `attachCtr` or `startAttachCtr` that switches the
terminal to raw mode, `term.SaveState` succeeded, and `term.RestoreTerminal` is
invoked with the saved state exactly once, as the last effect of the run,
whatever `ctr.Attach`, `ctr.StartAndAttach` and the attach channel deliver; the
terminal mode after the run is the mode before it. -/
theorem restoreTerminal_on_every_exit (w : World) (ctr : Container)
    (stdout stderr stdin : Option File) (detachKeys : String) (sigProxy : Bool) (r : Run)
    (hr : r = attachCtr w ctr stdout stderr stdin detachKeys sigProxy ∨
      r = startAttachCtr w ctr stdout stderr stdin detachKeys sigProxy)
    (hraw : Event.setRawTerminal ∈ r.trace) :
    ∃ oldTermState pre,
      SaveState w = .ok oldTermState ∧
      r.trace = pre ++ [Event.restoreTerminal oldTermState] ∧
      (∀ st, Event.restoreTerminal st ∉ pre) ∧
      finalMode w r.trace = w.termios := by
  have hE : (w.isTerminal && ctr.Spec.Process.Terminal) = true := by
    rcases hr with hr | hr
    · subst hr
      rcases attachCtr_events w ctr stdout stderr stdin detachKeys sigProxy _ hraw with
        hb | ⟨hE, _⟩
      · rcases attachCtrBody_events w ctr stdout stderr stdin detachKeys sigProxy _ hb with
          ⟨_, h⟩ | h | h <;> cases h
      · exact hE
    · subst hr
      rcases startAttachCtr_events w ctr stdout stderr stdin detachKeys sigProxy _ hraw with
        hb | ⟨hE, _⟩
      · rcases startAttachCtrBody_events w ctr stdout stderr stdin detachKeys sigProxy _ hb with
          ⟨_, h⟩ | h | h | h | h <;> cases h
      · exact hE
  have hS : w.saveStateErr = none := by
    cases hS : w.saveStateErr with
    | none => rfl
    | some err =>
      exfalso
      rcases hr with hr | hr
      · subst hr
        rw [attachCtr_saveState_failed w ctr stdout stderr stdin detachKeys sigProxy err hE hS]
          at hraw
        simp at hraw
      · subst hr
        rw [startAttachCtr_saveState_failed w ctr stdout stderr stdin detachKeys sigProxy err
          hE hS] at hraw
        simp at hraw
  have hsave : SaveState w = .ok w.termios := by simp [SaveState, hS]
  rcases hr with hr | hr
  · subst hr
    refine ⟨w.termios, [Event.debugf "Handling terminal attach", Event.resizeTty,
      Event.saveState] ++ [Event.setRawTerminal]
      ++ (attachCtrBody w ctr stdout stderr stdin detachKeys sigProxy).trace, hsave, ?_, ?_, ?_⟩
    · rw [attachCtr_engaged w ctr stdout stderr stdin detachKeys sigProxy hE hS]
    · intro st hst
      simp only [List.mem_append, List.mem_cons, List.mem_singleton, List.not_mem_nil,
        or_false] at hst
      rcases hst with ((h | h | h) | h) | hb
      · cases h
      · cases h
      · cases h
      · cases h
      · rcases attachCtrBody_events w ctr stdout stderr stdin detachKeys sigProxy _ hb with
          ⟨_, h⟩ | h | h <;> cases h
    · rw [attachCtr_engaged w ctr stdout stderr stdin detachKeys sigProxy hE hS]
      exact finalMode_append_restore w _ _
  · subst hr
    refine ⟨w.termios, [Event.debugf "Handling terminal attach", Event.resizeTty,
      Event.saveState] ++ [Event.setRawTerminal]
      ++ (startAttachCtrBody w ctr stdout stderr stdin detachKeys sigProxy).trace,
      hsave, ?_, ?_, ?_⟩
    · rw [startAttachCtr_engaged w ctr stdout stderr stdin detachKeys sigProxy hE hS]
    · intro st hst
      simp only [List.mem_append, List.mem_cons, List.mem_singleton, List.not_mem_nil,
        or_false] at hst
      rcases hst with ((h | h | h) | h) | hb
      · cases h
      · cases h
      · cases h
      · cases h
      · rcases startAttachCtrBody_events w ctr stdout stderr stdin detachKeys sigProxy _ hb with
          ⟨_, h⟩ | h | h | h | h <;> cases h
    · rw [startAttachCtr_engaged w ctr stdout stderr stdin detachKeys sigProxy hE hS]
      exact finalMode_append_restore w _ _

/-- Witness of C3: a start-and-attach on a terminal whose attach channel
delivers an error. -/
theorem restoreTerminal_on_every_exit_witness :
    ∃ oldTermState pre,
      SaveState brokenRelayWorld = .ok oldTermState ∧
      (startAttachCtr brokenRelayWorld runningCtr none none none "" true).trace =
        pre ++ [Event.restoreTerminal oldTermState] ∧
      (∀ st, Event.restoreTerminal st ∉ pre) ∧
      finalMode brokenRelayWorld
        (startAttachCtr brokenRelayWorld runningCtr none none none "" true).trace =
          brokenRelayWorld.termios :=
  restoreTerminal_on_every_exit brokenRelayWorld runningCtr none none none "" true
    (startAttachCtr brokenRelayWorld runningCtr none none none "" true) (Or.inr rfl)
    (by decide)

/-! ## Printing the container identifier -/

theorem printed_append (l₁ l₂ : List Event) : printed (l₁ ++ l₂) = printed l₁ ++ printed l₂ := by
  induction l₁ with
  | nil => rfl
  | cons e l ih => cases e <;> simp [printed, ih]

theorem printed_setupStreams (stdout stderr stdin : Option File) :
    printed (setupStreams stdout stderr stdin).2 = [] := by
  cases stdout <;> cases stderr <;> cases stdin <;> rfl

/-- Texts printed by a run of `startAttachCtr` whose terminal set-up does not
fail are those printed by its body. -/
theorem printed_startAttachCtr (w : World) (ctr : Container)
    (stdout stderr stdin : Option File) (detachKeys : String) (sigProxy : Bool)
    (h : (w.isTerminal && ctr.Spec.Process.Terminal) = false ∨ w.saveStateErr = none) :
    printed (startAttachCtr w ctr stdout stderr stdin detachKeys sigProxy).trace =
      printed (startAttachCtrBody w ctr stdout stderr stdin detachKeys sigProxy).trace := by
  cases hE : (w.isTerminal && ctr.Spec.Process.Terminal) with
  | false => rw [startAttachCtr_plain w ctr stdout stderr stdin detachKeys sigProxy hE]
  | true =>
    have hS : w.saveStateErr = none := by
      rcases h with h | h
      · rw [hE] at h; cases h
      · exact h
    rw [startAttachCtr_engaged w ctr stdout stderr stdin detachKeys sigProxy hE hS]
    simp [printed_append, printed]

/-- C4 (counterexample): with stdout and stderr nil and a failing
`ctr.StartAndAttach`, `startAttachCtr` prints nothing: the identifier is
written zero times. -/
theorem startAttachCtr_failed_start_prints_nothing :
    printed (startAttachCtr failedStartWorld runningCtr none none none "" false).trace = [] ∧
    (startAttachCtr failedStartWorld runningCtr none none none "" false).result =
      some (Error.errorf "cannot start container") := by
  decide

/-- C4 (amended): with stdout and stderr nil, `startAttachCtr` prints the
container identifier exactly once whenever the terminal set-up does not fail
and `ctr.StartAndAttach` succeeds, whatever the attach channel later delivers;
it prints nothing when `ctr.StartAndAttach` fails, when `term.SaveState` fails,
or when stdout or stderr is non-nil. -/
theorem startAttachCtr_prints_id (w : World) (ctr : Container)
    (stdout stderr stdin : Option File) (detachKeys : String) (sigProxy : Bool) :
    (stdout = none → stderr = none →
      ((w.isTerminal && ctr.Spec.Process.Terminal) = false ∨ w.saveStateErr = none) →
      ∀ attachChan,
        w.StartAndAttach ctr (setupStreams stdout stderr stdin).1 detachKeys = .ok attachChan →
        printed (startAttachCtr w ctr stdout stderr stdin detachKeys sigProxy).trace =
          [ctr.ID ++ "\n"]) ∧
    (∀ err, w.StartAndAttach ctr (setupStreams stdout stderr stdin).1 detachKeys = .error err →
      printed (startAttachCtr w ctr stdout stderr stdin detachKeys sigProxy).trace = []) ∧
    (∀ err, (w.isTerminal && ctr.Spec.Process.Terminal) = true → w.saveStateErr = some err →
      printed (startAttachCtr w ctr stdout stderr stdin detachKeys sigProxy).trace = []) ∧
    (stdout ≠ none ∨ stderr ≠ none →
      printed (startAttachCtr w ctr stdout stderr stdin detachKeys sigProxy).trace = []) := by
  have hfail : ∀ err, (w.isTerminal && ctr.Spec.Process.Terminal) = true →
      w.saveStateErr = some err →
      printed (startAttachCtr w ctr stdout stderr stdin detachKeys sigProxy).trace = [] := by
    intro err hE hS
    rw [startAttachCtr_saveState_failed w ctr stdout stderr stdin detachKeys sigProxy err hE hS]
    rfl
  have hsetup : (∀ err, ¬ ((w.isTerminal && ctr.Spec.Process.Terminal) = true ∧
      w.saveStateErr = some err)) →
      ((w.isTerminal && ctr.Spec.Process.Terminal) = false ∨ w.saveStateErr = none) := by
    intro h
    cases hE : (w.isTerminal && ctr.Spec.Process.Terminal) with
    | false => exact Or.inl rfl
    | true =>
      cases hS : w.saveStateErr with
      | none => exact Or.inr rfl
      | some err => exact absurd ⟨hE, hS⟩ (h err)
  refine ⟨?_, ?_, hfail, ?_⟩
  · intro ho he hok attachChan hsa
    rw [printed_startAttachCtr w ctr stdout stderr stdin detachKeys sigProxy hok,
      startAttachCtrBody_ok w ctr stdout stderr stdin detachKeys sigProxy attachChan hsa]
    subst ho he
    cases sigProxy <;> simp [printed_append, printed_setupStreams, printed]
  · intro err hsa
    by_cases hbad : ∃ e, (w.isTerminal && ctr.Spec.Process.Terminal) = true ∧
        w.saveStateErr = some e
    · obtain ⟨e, hE, hS⟩ := hbad
      exact hfail e hE hS
    · have hok := hsetup (fun e he => hbad ⟨e, he⟩)
      rw [printed_startAttachCtr w ctr stdout stderr stdin detachKeys sigProxy hok,
        startAttachCtrBody_error w ctr stdout stderr stdin detachKeys sigProxy err hsa]
      simp [printed_append, printed_setupStreams, printed]
  · intro hne
    by_cases hbad : ∃ e, (w.isTerminal && ctr.Spec.Process.Terminal) = true ∧
        w.saveStateErr = some e
    · obtain ⟨e, hE, hS⟩ := hbad
      exact hfail e hE hS
    · have hok := hsetup (fun e he => hbad ⟨e, he⟩)
      rw [printed_startAttachCtr w ctr stdout stderr stdin detachKeys sigProxy hok]
      cases hsa : w.StartAndAttach ctr (setupStreams stdout stderr stdin).1 detachKeys with
      | error err =>
        rw [startAttachCtrBody_error w ctr stdout stderr stdin detachKeys sigProxy err hsa]
        simp [printed_append, printed_setupStreams, printed]
      | ok attachChan =>
        rw [startAttachCtrBody_ok w ctr stdout stderr stdin detachKeys sigProxy attachChan hsa]
        have hcond : (stdout = none && stderr = none) = false := by
          cases stdout <;> cases stderr <;> simp at hne ⊢
        cases sigProxy <;> simp [printed_append, printed_setupStreams, printed, hcond]

/-- Witness of C4 (amended): a detached start on a terminal whose attach channel
later delivers an error prints the identifier once. -/
theorem startAttachCtr_prints_id_witness :
    printed (startAttachCtr brokenRelayWorld runningCtr none none none "" true).trace =
      ["abc" ++ "\n"] :=
  (startAttachCtr_prints_id brokenRelayWorld runningCtr none none none "" true).1 rfl rfl
    (Or.inr rfl) (some (Error.errorf "connection reset")) rfl

/-! ## The value returned by `startAttachCtr` -/

/-- C5: in every run of `startAttachCtr` that calls `ctr.StartAndAttach` with
success, the function returns nil exactly when the value received from the
attach channel is nil; a received error `e` is returned wrapped with the
message "error attaching to container <ID>", so that the cause of the returned
error is `e` and its text contains the container identifier. -/
theorem startAttachCtr_result (w : World) (ctr : Container)
    (stdout stderr stdin : Option File) (detachKeys : String) (sigProxy : Bool)
    (attachChan : Option Error)
    (hcall : Event.startAndAttach ctr.ID (setupStreams stdout stderr stdin).1 detachKeys ∈
      (startAttachCtr w ctr stdout stderr stdin detachKeys sigProxy).trace)
    (hok : w.StartAndAttach ctr (setupStreams stdout stderr stdin).1 detachKeys
      = .ok attachChan) :
    ((startAttachCtr w ctr stdout stderr stdin detachKeys sigProxy).result = none ↔
      attachChan = none) ∧
    (∀ e, attachChan = some e →
      (startAttachCtr w ctr stdout stderr stdin detachKeys sigProxy).result =
        some (Error.wrapf e ("error attaching to container " ++ ctr.ID)) ∧
      (Error.wrapf e ("error attaching to container " ++ ctr.ID)).cause = some e ∧
      ctr.ID.data <:+: (Error.wrapf e ("error attaching to container " ++ ctr.ID)).text.data) := by
  have hres : (startAttachCtr w ctr stdout stderr stdin detachKeys sigProxy).result =
      Wrapf attachChan ("error attaching to container " ++ ctr.ID) := by
    cases hE : (w.isTerminal && ctr.Spec.Process.Terminal) with
    | false =>
      rw [startAttachCtr_plain w ctr stdout stderr stdin detachKeys sigProxy hE,
        startAttachCtrBody_ok w ctr stdout stderr stdin detachKeys sigProxy attachChan hok]
    | true =>
      cases hS : w.saveStateErr with
      | none =>
        rw [startAttachCtr_engaged w ctr stdout stderr stdin detachKeys sigProxy hE hS,
          startAttachCtrBody_ok w ctr stdout stderr stdin detachKeys sigProxy attachChan hok]
      | some err =>
        rw [startAttachCtr_saveState_failed w ctr stdout stderr stdin detachKeys sigProxy err
          hE hS] at hcall
        simp at hcall
  refine ⟨?_, ?_⟩
  · rw [hres]
    cases attachChan <;> simp [Wrapf]
  · intro e he
    subst he
    refine ⟨by rw [hres]; rfl, rfl, ?_⟩
    refine ⟨"error attaching to container ".data, (": " ++ e.text).data, ?_⟩
    simp [Error.text, String.data_append]

/-- Witness of C5: the attach channel delivers "connection reset". -/
theorem startAttachCtr_result_witness :
    ((startAttachCtr brokenRelayWorld runningCtr none none none "" true).result = none ↔
      some (Error.errorf "connection reset") = none) ∧
    (∀ e, some (Error.errorf "connection reset") = some e →
      (startAttachCtr brokenRelayWorld runningCtr none none none "" true).result =
        some (Error.wrapf e ("error attaching to container " ++ runningCtr.ID)) ∧
      (Error.wrapf e ("error attaching to container " ++ runningCtr.ID)).cause = some e ∧
      runningCtr.ID.data <:+:
        (Error.wrapf e ("error attaching to container " ++ runningCtr.ID)).text.data) :=
  startAttachCtr_result brokenRelayWorld runningCtr none none none "" true
    (some (Error.errorf "connection reset")) (by decide) rfl

/-! ## Runs that do not engage the terminal -/

/-- Without an engaged terminal no effect of `attachCtr` or `startAttachCtr`
touches the terminal or starts the resize pump. -/
theorem not_engaged_events (w : World) (ctr : Container) (stdout stderr stdin : Option File)
    (detachKeys : String) (sigProxy : Bool)
    (hE : (w.isTerminal && ctr.Spec.Process.Terminal) = false) (e : Event)
    (he : e ∈ (attachCtr w ctr stdout stderr stdin detachKeys sigProxy).trace ∨
      e ∈ (startAttachCtr w ctr stdout stderr stdin detachKeys sigProxy).trace) :
    e ≠ Event.resizeTty ∧ e ≠ Event.saveState ∧ e ≠ Event.setRawTerminal ∧
      ∀ st, e ≠ Event.restoreTerminal st := by
  rcases he with he | he
  · rw [attachCtr_plain w ctr stdout stderr stdin detachKeys sigProxy hE] at he
    rcases attachCtrBody_events w ctr stdout stderr stdin detachKeys sigProxy e he with
      ⟨_, h⟩ | h | h <;> subst h <;> simp
  · rw [startAttachCtr_plain w ctr stdout stderr stdin detachKeys sigProxy hE] at he
    rcases startAttachCtrBody_events w ctr stdout stderr stdin detachKeys sigProxy e he with
      ⟨_, h⟩ | h | h | h | h <;> subst h <;> simp

/-- C7: when stdin is not a terminal or the container expects no terminal,
neither `attachCtr` nor `startAttachCtr` invokes `term.SaveState`,
`term.SetRawTerminal`, `term.RestoreTerminal` or `resizeTty`, and both still
make their attach, respectively start-and-attach, call. -/
theorem terminal_engaged_only_if_both (w : World) (ctr : Container)
    (stdout stderr stdin : Option File) (detachKeys : String) (sigProxy : Bool)
    (h : w.isTerminal = false ∨ ctr.Spec.Process.Terminal = false) :
    (Event.saveState ∉ (attachCtr w ctr stdout stderr stdin detachKeys sigProxy).trace ∧
      Event.setRawTerminal ∉ (attachCtr w ctr stdout stderr stdin detachKeys sigProxy).trace ∧
      (∀ st, Event.restoreTerminal st ∉
        (attachCtr w ctr stdout stderr stdin detachKeys sigProxy).trace) ∧
      Event.resizeTty ∉ (attachCtr w ctr stdout stderr stdin detachKeys sigProxy).trace ∧
      Event.attach ctr.ID (setupStreams stdout stderr stdin).1 detachKeys ∈
        (attachCtr w ctr stdout stderr stdin detachKeys sigProxy).trace) ∧
    (Event.saveState ∉ (startAttachCtr w ctr stdout stderr stdin detachKeys sigProxy).trace ∧
      Event.setRawTerminal ∉
        (startAttachCtr w ctr stdout stderr stdin detachKeys sigProxy).trace ∧
      (∀ st, Event.restoreTerminal st ∉
        (startAttachCtr w ctr stdout stderr stdin detachKeys sigProxy).trace) ∧
      Event.resizeTty ∉ (startAttachCtr w ctr stdout stderr stdin detachKeys sigProxy).trace ∧
      Event.startAndAttach ctr.ID (setupStreams stdout stderr stdin).1 detachKeys ∈
        (startAttachCtr w ctr stdout stderr stdin detachKeys sigProxy).trace) := by
  have hE : (w.isTerminal && ctr.Spec.Process.Terminal) = false := by
    rcases h with h | h <;> simp [h]
  have hA := fun e he =>
    not_engaged_events w ctr stdout stderr stdin detachKeys sigProxy hE e (Or.inl he)
  have hS := fun e he =>
    not_engaged_events w ctr stdout stderr stdin detachKeys sigProxy hE e (Or.inr he)
  refine ⟨⟨?_, ?_, ?_, ?_, ?_⟩, ⟨?_, ?_, ?_, ?_, ?_⟩⟩
  · exact fun he => (hA _ he).2.1 rfl
  · exact fun he => (hA _ he).2.2.1 rfl
  · exact fun st he => (hA _ he).2.2.2 st rfl
  · exact fun he => (hA _ he).1 rfl
  · exact (attachCtr_reaches_attach w ctr stdout stderr stdin detachKeys sigProxy (Or.inl hE)).1
  · exact fun he => (hS _ he).2.1 rfl
  · exact fun he => (hS _ he).2.2.1 rfl
  · exact fun st he => (hS _ he).2.2.2 st rfl
  · exact fun he => (hS _ he).1 rfl
  · exact startAttachCtr_reaches_startAndAttach w ctr stdout stderr stdin detachKeys sigProxy
      (Or.inl hE)

/-- Witness of C7: stdin is a terminal, the container expects none. -/
theorem terminal_engaged_only_if_both_witness :
    (Event.saveState ∉
        (attachCtr ttyWorld { runningCtr with Spec := { Process := { Terminal := false } } }
          none none none "" false).trace ∧
      Event.setRawTerminal ∉
        (attachCtr ttyWorld { runningCtr with Spec := { Process := { Terminal := false } } }
          none none none "" false).trace ∧
      (∀ st, Event.restoreTerminal st ∉
        (attachCtr ttyWorld { runningCtr with Spec := { Process := { Terminal := false } } }
          none none none "" false).trace) ∧
      Event.resizeTty ∉
        (attachCtr ttyWorld { runningCtr with Spec := { Process := { Terminal := false } } }
          none none none "" false).trace ∧
      Event.attach "abc" (setupStreams none none none).1 "" ∈
        (attachCtr ttyWorld { runningCtr with Spec := { Process := { Terminal := false } } }
          none none none "" false).trace) ∧
    (Event.saveState ∉
        (startAttachCtr ttyWorld { runningCtr with Spec := { Process := { Terminal := false } } }
          none none none "" false).trace ∧
      Event.setRawTerminal ∉
        (startAttachCtr ttyWorld { runningCtr with Spec := { Process := { Terminal := false } } }
          none none none "" false).trace ∧
      (∀ st, Event.restoreTerminal st ∉
        (startAttachCtr ttyWorld { runningCtr with Spec := { Process := { Terminal := false } } }
          none none none "" false).trace) ∧
      Event.resizeTty ∉
        (startAttachCtr ttyWorld { runningCtr with Spec := { Process := { Terminal := false } } }
          none none none "" false).trace ∧
      Event.startAndAttach "abc" (setupStreams none none none).1 "" ∈
        (startAttachCtr ttyWorld { runningCtr with Spec := { Process := { Terminal := false } } }
          none none none "" false).trace) :=
  terminal_engaged_only_if_both ttyWorld
    { runningCtr with Spec := { Process := { Terminal := false } } } none none none "" false
    (Or.inr rfl)

/-- C9 (counterexample): with a stdin that is not a terminal, neither
`attachCtr` nor `startAttachCtr` invokes `resizeTty`, although the container
expects a terminal: the resize pump is not started. -/
theorem resizeTty_not_started_without_terminal :
    pipeWorld.isTerminal = false ∧
    Event.resizeTty ∉ (attachCtr pipeWorld runningCtr none none none "" false).trace ∧
    Event.resizeTty ∉ (startAttachCtr pipeWorld runningCtr none none none "" false).trace := by
  decide

/-- C9 (amended): when stdin is not a terminal, `attachCtr` and `startAttachCtr`
make no raw-mode switch, do not start the resize pump, and make their attach,
respectively start-and-attach, call. -/
theorem no_terminal_no_pump_relay_proceeds (w : World) (ctr : Container)
    (stdout stderr stdin : Option File) (detachKeys : String) (sigProxy : Bool)
    (h : w.isTerminal = false) :
    (Event.setRawTerminal ∉ (attachCtr w ctr stdout stderr stdin detachKeys sigProxy).trace ∧
      Event.resizeTty ∉ (attachCtr w ctr stdout stderr stdin detachKeys sigProxy).trace ∧
      Event.attach ctr.ID (setupStreams stdout stderr stdin).1 detachKeys ∈
        (attachCtr w ctr stdout stderr stdin detachKeys sigProxy).trace) ∧
    (Event.setRawTerminal ∉
        (startAttachCtr w ctr stdout stderr stdin detachKeys sigProxy).trace ∧
      Event.resizeTty ∉ (startAttachCtr w ctr stdout stderr stdin detachKeys sigProxy).trace ∧
      Event.startAndAttach ctr.ID (setupStreams stdout stderr stdin).1 detachKeys ∈
        (startAttachCtr w ctr stdout stderr stdin detachKeys sigProxy).trace) := by
  have hE : (w.isTerminal && ctr.Spec.Process.Terminal) = false := by simp [h]
  have hA := fun e he =>
    not_engaged_events w ctr stdout stderr stdin detachKeys sigProxy hE e (Or.inl he)
  have hS := fun e he =>
    not_engaged_events w ctr stdout stderr stdin detachKeys sigProxy hE e (Or.inr he)
  refine ⟨⟨?_, ?_, ?_⟩, ⟨?_, ?_, ?_⟩⟩
  · exact fun he => (hA _ he).2.2.1 rfl
  · exact fun he => (hA _ he).1 rfl
  · exact (attachCtr_reaches_attach w ctr stdout stderr stdin detachKeys sigProxy (Or.inl hE)).1
  · exact fun he => (hS _ he).2.2.1 rfl
  · exact fun he => (hS _ he).1 rfl
  · exact startAttachCtr_reaches_startAndAttach w ctr stdout stderr stdin detachKeys sigProxy
      (Or.inl hE)

/-- Witness of C9 (amended): stdin is a pipe, the container expects a
terminal. -/
theorem no_terminal_no_pump_relay_proceeds_witness :
    (Event.setRawTerminal ∉ (attachCtr pipeWorld runningCtr none none none "" true).trace ∧
      Event.resizeTty ∉ (attachCtr pipeWorld runningCtr none none none "" true).trace ∧
      Event.attach runningCtr.ID (setupStreams none none none).1 "" ∈
        (attachCtr pipeWorld runningCtr none none none "" true).trace) ∧
    (Event.setRawTerminal ∉ (startAttachCtr pipeWorld runningCtr none none none "" true).trace ∧
      Event.resizeTty ∉ (startAttachCtr pipeWorld runningCtr none none none "" true).trace ∧
      Event.startAndAttach runningCtr.ID (setupStreams none none none).1 "" ∈
        (startAttachCtr pipeWorld runningCtr none none none "" true).trace) :=
  no_terminal_no_pump_relay_proceeds pipeWorld runningCtr none none none "" true rfl

/-! ## Order of the signal proxy and the relay -/

/-- Debug lines of `setupStreams` are no call, print or receive. -/
theorem setupStreams_log_kinds (stdout stderr stdin : Option File) (e : Event)
    (he : e ∈ (setupStreams stdout stderr stdin).2) :
    (∀ id s k, e ≠ Event.attach id s k) ∧ (∀ id s k, e ≠ Event.startAndAttach id s k) ∧
      (∀ id, e ≠ Event.proxySignals id) ∧ (∀ out, e ≠ Event.printf out) ∧
      e ≠ Event.recvAttachChan := by
  obtain ⟨msg, rfl⟩ := setupStreams_log stdout stderr stdin e he
  simp

/-- Effects of the terminal set-up followed by the debug lines of
`setupStreams` are no call, print or receive. -/
theorem engaged_prefix_kinds (stdout stderr stdin : Option File) (e : Event)
    (he : e ∈ [Event.debugf "Handling terminal attach", Event.resizeTty, Event.saveState,
      Event.setRawTerminal] ++ (setupStreams stdout stderr stdin).2) :
    (∀ id s k, e ≠ Event.attach id s k) ∧ (∀ id s k, e ≠ Event.startAndAttach id s k) ∧
      (∀ id, e ≠ Event.proxySignals id) ∧ (∀ out, e ≠ Event.printf out) ∧
      e ≠ Event.recvAttachChan := by
  simp only [List.mem_append, List.mem_cons, List.mem_singleton, List.not_mem_nil,
    or_false] at he
  rcases he with (he | he | he | he) | he
  · subst he; simp
  · subst he; simp
  · subst he; simp
  · subst he; simp
  · exact setupStreams_log_kinds stdout stderr stdin e he

/-- C6 (counterexample): with `sigProxy = true`, `startAttachCtr` calls
`ctr.StartAndAttach` first and starts the signal proxy after it. -/
theorem startAttachCtr_relay_before_proxy :
    (startAttachCtr pipeWorld runningCtr (some outFile) none none "" true).trace =
      [Event.debugf "Not attaching to stderr", Event.debugf "Not attaching to stdin",
        Event.startAndAttach "abc"
          { OutputStream := some outFile, ErrorStream := none, InputStream := none,
            AttachOutput := true, AttachError := false, AttachInput := false } "",
        Event.proxySignals "abc", Event.recvAttachChan] ∧
    List.indexOf
        (Event.startAndAttach "abc"
          { OutputStream := some outFile, ErrorStream := none, InputStream := none,
            AttachOutput := true, AttachError := false, AttachInput := false } "")
        (startAttachCtr pipeWorld runningCtr (some outFile) none none "" true).trace <
      List.indexOf (Event.proxySignals "abc")
        (startAttachCtr pipeWorld runningCtr (some outFile) none none "" true).trace := by
  decide

/-- C6 (amended): with `sigProxy = true`, on every run whose terminal set-up
does not fail: `attachCtr` starts the signal proxy directly before its single
`ctr.Attach` call.  `startAttachCtr` has neither started the proxy nor printed
nor received anything when it calls `ctr.StartAndAttach`; when that call
succeeds, the proxy is started directly after it, then the identifier is
printed (only when stdout and stderr are nil), then the attach channel is
read, and no proxy start, print or receive follows; when the call fails, no
proxy start, print or receive follows it. -/
theorem proxySignals_order (w : World) (ctr : Container) (stdout stderr stdin : Option File)
    (detachKeys : String)
    (h : (w.isTerminal && ctr.Spec.Process.Terminal) = false ∨ w.saveStateErr = none) :
    (∃ pre post,
      (attachCtr w ctr stdout stderr stdin detachKeys true).trace =
        pre ++ Event.proxySignals ctr.ID
          :: Event.attach ctr.ID (setupStreams stdout stderr stdin).1 detachKeys :: post ∧
      (∀ id s k, Event.attach id s k ∉ pre) ∧ (∀ id, Event.proxySignals id ∉ pre) ∧
      (∀ id s k, Event.attach id s k ∉ post) ∧ (∀ id, Event.proxySignals id ∉ post)) ∧
    (∃ pre post,
      (startAttachCtr w ctr stdout stderr stdin detachKeys true).trace =
        pre ++ Event.startAndAttach ctr.ID (setupStreams stdout stderr stdin).1 detachKeys
          :: post ∧
      (∀ id s k, Event.startAndAttach id s k ∉ pre) ∧
      (∀ id, Event.proxySignals id ∉ pre) ∧ (∀ out, Event.printf out ∉ pre) ∧
      Event.recvAttachChan ∉ pre ∧
      (∀ attachChan,
        w.StartAndAttach ctr (setupStreams stdout stderr stdin).1 detachKeys = .ok attachChan →
        ∃ rest,
          post = Event.proxySignals ctr.ID
            :: ((if stdout = none && stderr = none then [Event.printf (ctr.ID ++ "\n")]
                  else [])
                ++ Event.recvAttachChan :: rest) ∧
          (∀ id s k, Event.startAndAttach id s k ∉ rest) ∧
          (∀ id, Event.proxySignals id ∉ rest) ∧ (∀ out, Event.printf out ∉ rest) ∧
          Event.recvAttachChan ∉ rest) ∧
      (∀ err,
        w.StartAndAttach ctr (setupStreams stdout stderr stdin).1 detachKeys = .error err →
        (∀ id s k, Event.startAndAttach id s k ∉ post) ∧
        (∀ id, Event.proxySignals id ∉ post) ∧ (∀ out, Event.printf out ∉ post) ∧
        Event.recvAttachChan ∉ post)) := by
  have hlog := setupStreams_log_kinds stdout stderr stdin
  have hpre := engaged_prefix_kinds stdout stderr stdin
  cases hE : (w.isTerminal && ctr.Spec.Process.Terminal) with
  | false =>
    refine ⟨⟨(setupStreams stdout stderr stdin).2, [], ?_,
      fun id s k he => (hlog _ he).1 id s k rfl, fun id he => (hlog _ he).2.2.1 id rfl,
      by simp, by simp⟩, ?_⟩
    · rw [attachCtr_plain w ctr stdout stderr stdin detachKeys true hE, attachCtrBody_trace]
      simp
    · rw [startAttachCtr_plain w ctr stdout stderr stdin detachKeys true hE]
      cases hsa : w.StartAndAttach ctr (setupStreams stdout stderr stdin).1 detachKeys with
      | error err =>
        refine ⟨(setupStreams stdout stderr stdin).2, [], ?_,
          fun id s k he => (hlog _ he).2.1 id s k rfl, fun id he => (hlog _ he).2.2.1 id rfl,
          fun out he => (hlog _ he).2.2.2.1 out rfl, fun he => (hlog _ he).2.2.2.2 rfl,
          by simp, by simp⟩
        rw [startAttachCtrBody_error w ctr stdout stderr stdin detachKeys true err hsa]
      | ok attachChan =>
        refine ⟨(setupStreams stdout stderr stdin).2,
          Event.proxySignals ctr.ID ::
            ((if stdout = none && stderr = none then [Event.printf (ctr.ID ++ "\n")] else [])
              ++ Event.recvAttachChan :: []), ?_,
          fun id s k he => (hlog _ he).2.1 id s k rfl, fun id he => (hlog _ he).2.2.1 id rfl,
          fun out he => (hlog _ he).2.2.2.1 out rfl, fun he => (hlog _ he).2.2.2.2 rfl,
          ?_, by simp⟩
        · rw [startAttachCtrBody_ok w ctr stdout stderr stdin detachKeys true attachChan hsa]
          simp
        · intro _ _
          exact ⟨[], rfl, by simp, by simp, by simp, by simp⟩
  | true =>
    have hS : w.saveStateErr = none := by
      rcases h with h | h
      · rw [hE] at h; cases h
      · exact h
    refine ⟨⟨[Event.debugf "Handling terminal attach", Event.resizeTty, Event.saveState,
      Event.setRawTerminal] ++ (setupStreams stdout stderr stdin).2,
      [Event.restoreTerminal w.termios], ?_,
      fun id s k he => (hpre _ he).1 id s k rfl, fun id he => (hpre _ he).2.2.1 id rfl,
      by simp, by simp⟩, ?_⟩
    · rw [attachCtr_engaged w ctr stdout stderr stdin detachKeys true hE hS,
        attachCtrBody_trace]
      simp
    · rw [startAttachCtr_engaged w ctr stdout stderr stdin detachKeys true hE hS]
      cases hsa : w.StartAndAttach ctr (setupStreams stdout stderr stdin).1 detachKeys with
      | error err =>
        refine ⟨[Event.debugf "Handling terminal attach", Event.resizeTty, Event.saveState,
          Event.setRawTerminal] ++ (setupStreams stdout stderr stdin).2,
          [Event.restoreTerminal w.termios], ?_,
          fun id s k he => (hpre _ he).2.1 id s k rfl, fun id he => (hpre _ he).2.2.1 id rfl,
          fun out he => (hpre _ he).2.2.2.1 out rfl, fun he => (hpre _ he).2.2.2.2 rfl,
          by simp, by simp⟩
        rw [startAttachCtrBody_error w ctr stdout stderr stdin detachKeys true err hsa]
        simp
      | ok attachChan =>
        refine ⟨[Event.debugf "Handling terminal attach", Event.resizeTty, Event.saveState,
          Event.setRawTerminal] ++ (setupStreams stdout stderr stdin).2,
          Event.proxySignals ctr.ID ::
            ((if stdout = none && stderr = none then [Event.printf (ctr.ID ++ "\n")] else [])
              ++ Event.recvAttachChan :: [Event.restoreTerminal w.termios]), ?_,
          fun id s k he => (hpre _ he).2.1 id s k rfl, fun id he => (hpre _ he).2.2.1 id rfl,
          fun out he => (hpre _ he).2.2.2.1 out rfl, fun he => (hpre _ he).2.2.2.2 rfl,
          ?_, by simp⟩
        · rw [startAttachCtrBody_ok w ctr stdout stderr stdin detachKeys true attachChan hsa]
          simp
        · intro _ _
          exact ⟨[Event.restoreTerminal w.termios], rfl, by simp, by simp, by simp, by simp⟩

/-- Witness of C6 (amended): a detached start on a terminal, where the
identifier is printed between the start of the proxy and the receive. -/
theorem proxySignals_order_witness :
    (∃ pre post,
      (attachCtr ttyWorld runningCtr none none none "" true).trace =
        pre ++ Event.proxySignals runningCtr.ID
          :: Event.attach runningCtr.ID (setupStreams none none none).1 "" :: post ∧
      (∀ id s k, Event.attach id s k ∉ pre) ∧ (∀ id, Event.proxySignals id ∉ pre) ∧
      (∀ id s k, Event.attach id s k ∉ post) ∧ (∀ id, Event.proxySignals id ∉ post)) ∧
    (∃ pre post,
      (startAttachCtr ttyWorld runningCtr none none none "" true).trace =
        pre ++ Event.startAndAttach runningCtr.ID (setupStreams none none none).1 "" :: post ∧
      (∀ id s k, Event.startAndAttach id s k ∉ pre) ∧
      (∀ id, Event.proxySignals id ∉ pre) ∧ (∀ out, Event.printf out ∉ pre) ∧
      Event.recvAttachChan ∉ pre ∧
      (∀ attachChan,
        ttyWorld.StartAndAttach runningCtr (setupStreams none none none).1 "" = .ok attachChan →
        ∃ rest,
          post = Event.proxySignals runningCtr.ID
            :: ((if (none : Option File) = none && (none : Option File) = none then
                    [Event.printf (runningCtr.ID ++ "\n")]
                  else [])
                ++ Event.recvAttachChan :: rest) ∧
          (∀ id s k, Event.startAndAttach id s k ∉ rest) ∧
          (∀ id, Event.proxySignals id ∉ rest) ∧ (∀ out, Event.printf out ∉ rest) ∧
          Event.recvAttachChan ∉ rest) ∧
      (∀ err,
        ttyWorld.StartAndAttach runningCtr (setupStreams none none none).1 "" = .error err →
        (∀ id s k, Event.startAndAttach id s k ∉ post) ∧
        (∀ id, Event.proxySignals id ∉ post) ∧ (∀ out, Event.printf out ∉ post) ∧
        Event.recvAttachChan ∉ post)) :=
  proxySignals_order ttyWorld runningCtr none none none "" (Or.inr rfl)

/-! ## The resize pump -/

theorem sent_append (l₁ l₂ : List PumpEvent) : sent (l₁ ++ l₂) = sent l₁ ++ sent l₂ := by
  induction l₁ with
  | nil => rfl
  | cons e l ih => cases e <;> simp [sent, ih]

theorem sent_sendUpdate (query : Except Error Winsize) :
    sent (sendUpdate query) = (querySize query).toList := by
  cases query <;> rfl

theorem sent_resizeLoop (queries : List (Except Error Winsize)) :
    sent (resizeLoop queries) = queries.filterMap querySize := by
  induction queries with
  | nil => rfl
  | cons query rest ih =>
    rw [resizeLoop, sent_append, sent_sendUpdate, ih]
    cases query <;> simp [querySize]

/-- C8 (counterexample): it is not true that the first size the pump sends is
always the one sampled at pump start: when the first query fails and the query
after the first SIGWINCH succeeds, the first size sent is the later one. -/
theorem first_resize_not_always_initial :
    ¬ ∀ (atStart : Except Error Winsize) (onSigwinch : List (Except Error Winsize))
        (size : TerminalSize),
        (sent (resizeTty atStart onSigwinch)).head? = some size →
          ∃ winsize, atStart = .ok winsize ∧
            size = { Width := winsize.Width, Height := winsize.Height } := by
  intro h
  obtain ⟨winsize, hw, _⟩ :=
    h (.error (Error.errorf "inappropriate ioctl for device")) [.ok { Height := 24, Width := 80 }]
      { Width := 80, Height := 24 } rfl
  cases hw

/-- C8 (amended): the sizes the pump sends are exactly the successful query
results, in order, the failed queries being skipped; when the query at pump
start succeeds, its size is the first one sent. -/
theorem resizeTty_sends_successful_queries (atStart : Except Error Winsize)
    (onSigwinch : List (Except Error Winsize)) :
    sent (resizeTty atStart onSigwinch) = (atStart :: onSigwinch).filterMap querySize ∧
    (∀ winsize, atStart = .ok winsize →
      (sent (resizeTty atStart onSigwinch)).head? =
        some { Width := winsize.Width, Height := winsize.Height }) := by
  have hall : sent (resizeTty atStart onSigwinch) =
      (atStart :: onSigwinch).filterMap querySize := by
    rw [resizeTty, sent_append, sent_sendUpdate, sent_resizeLoop]
    cases atStart <;> simp [querySize]
  refine ⟨hall, ?_⟩
  intro winsize hw
  subst hw
  rw [hall]
  simp [querySize]

/-- Witness of C8 (amended): a successful first query followed by a failed and
a successful one. -/
theorem resizeTty_sends_successful_queries_witness :
    (sent (resizeTty (.ok { Height := 24, Width := 80 })
      [.error (Error.errorf "interrupted"), .ok { Height := 50, Width := 132 }])).head? =
        some { Width := 80, Height := 24 } :=
  (resizeTty_sends_successful_queries (.ok { Height := 24, Width := 80 })
    [.error (Error.errorf "interrupted"), .ok { Height := 50, Width := 132 }]).2
    { Height := 24, Width := 80 } rfl

/-! ## `podman top` -/

/-- C10: with `--latest`, an empty argument list passes the initial check of
`topCmd`; when the container lookup or the state query then fails, the error
path evaluates `args[0]` on the empty list and the command panics with an index
out of range instead of returning an error. -/
theorem topCmd_latest_empty_args_panics :
    (latestNoContainer.args.length < 1 && !latestNoContainer.latest) = false ∧
    topCmd latestNoContainer = .error (Panic.indexOutOfRange 0 0) ∧
    topCmd latestStateFails = .error (Panic.indexOutOfRange 0 0) :=
  ⟨rfl, rfl, rfl⟩

/-- With at least one argument `topCmd` returns: no index or slice expression
is out of range. -/
theorem topCmd_returns_of_args (c : TopEnv) (h : 1 ≤ c.args.length) :
    ∃ run, topCmd c = .ok run := by
  obtain ⟨a, rest, hargs⟩ : ∃ a rest, c.args = a :: rest := by
    cases hc : c.args with
    | nil => rw [hc] at h; simp at h
    | cons a rest => exact ⟨a, rest, rfl⟩
  have hidx : index (a :: rest) 0 = .ok a := by simp [index]
  have hslice : sliceFrom (a :: rest) 1 = .ok rest := by simp [sliceFrom]
  unfold topCmd
  simp only [hargs, hidx, hslice]
  cases c.latest <;> cases c.validateFlags <;> cases c.GetRuntime <;>
    simp [bind, Except.bind, pure, Except.pure] <;>
    (repeat' split) <;> simp

end Podman
